import Mathlib

/-!
Verification of the Mission Control dashboard (src/app_railway.py).

The file shallowly embeds the data model (five tables: agents, messages,
projects, timeline, subagents), the mutating API handlers (send_message,
update_project, spawn_agent), database seeding (init_db), the health
endpoint, and the dual-dialect data-access helpers (execute_sql placeholder
rewriting, fetchone/fetchall row normalization).

Modelling conventions:
- A table is a Lean list of rows; INSERT appends at the end, UPDATE maps
  over the list, matching the row-level effect of the SQL statements.
- CURRENT_TIMESTAMP values are passed in as explicit parameters (a Nat
  tick for columns the handlers write, a broken-down DateTime for the
  strftime-formatted session id).
- AUTOINCREMENT surrogate keys are modelled by explicit next-id counters
  for agents and projects (the only tables whose ids the handlers read);
  surrogate keys of messages, timeline and subagents are never read by
  any handler and are omitted.
- JSON request bodies are modelled field by field as Option values
  (absent field = none); Python truthiness of a string is emptiness after
  the relevant check; `.strip()` is pyStrip (whitespace dropped from both
  ends, kept executable so concrete runs reduce in the kernel).
- Handler results are a response record paired with the post state; early
  error returns leave the state untouched, as in the code every error
  return happens before the first INSERT/UPDATE.
-/

namespace MissionControl

/-- A row of the `agents` table (id, name, role, status, description,
last_active); created_at is never read and is omitted. -/
structure Agent where
  id : Int
  name : String
  role : String
  status : String
  description : String
  last_active : Nat
deriving Repr, DecidableEq

/-- A row of the `messages` table (agent_id, content, direction). -/
structure Message where
  agent_id : Int
  content : String
  direction : String
deriving Repr, DecidableEq

/-- A row of the `projects` table (id, name, category, status, progress,
description, updated_at). -/
structure Project where
  id : Int
  name : String
  category : String
  status : String
  progress : Int
  description : String
  updated_at : Nat
deriving Repr, DecidableEq

/-- A row of the `timeline` table (event_type, title, description,
agent_name). -/
structure TimelineEvent where
  event_type : String
  title : String
  description : String
  agent_name : String
deriving Repr, DecidableEq

/-- A row of the `subagents` table (session_id, agent_name, task, status,
completed_at). -/
structure Subagent where
  session_id : String
  agent_name : String
  task : String
  status : String
  completed_at : Option Nat
deriving Repr, DecidableEq

/-- The database state: the five tables plus the AUTOINCREMENT counters
for the two tables whose surrogate keys the handlers read. -/
structure DBState where
  agents : List Agent
  messages : List Message
  projects : List Project
  timeline : List TimelineEvent
  subagents : List Subagent
  nextAgentId : Int
  nextProjectId : Int
deriving Repr, DecidableEq

/-- A fresh database before any initialization: every table empty. -/
def initialState : DBState :=
  { agents := [], messages := [], projects := [], timeline := [],
    subagents := [], nextAgentId := 1, nextProjectId := 1 }

/-- JSON response of an API handler together with its HTTP status code.
Fields that a given handler does not emit are none/default. -/
structure ApiResp where
  http : Nat
  success : Bool
  error : Option String
  session_id : Option String
  agent : Option String
deriving Repr, DecidableEq

/-- Success response carrying no extra fields. -/
def okResp : ApiResp :=
  { http := 200, success := true, error := none, session_id := none,
    agent := none }

/-- Error response with the given HTTP status and error message. -/
def errResp (code : Nat) (msg : String) : ApiResp :=
  { http := code, success := false, error := some msg, session_id := none,
    agent := none }

/-- Python `str.strip()`: drop whitespace (space, tab, CR, LF) from both
ends of the string. -/
def pyStrip (s : String) : String :=
  String.mk
    (((s.data.dropWhile Char.isWhitespace).reverse.dropWhile
        Char.isWhitespace).reverse)

/-- Python `str.lower()` on the ASCII names this app stores: lowercase
every character. -/
def pyLower (s : String) : String :=
  String.mk (s.data.map Char.toLower)

/-- `SELECT * FROM agents WHERE id = ?` followed by fetchone: the first
row whose id matches. -/
def findAgent (s : DBState) (agent_id : Int) : Option Agent :=
  s.agents.find? (fun a => a.id == agent_id)

/-- `POST /api/agent/<id>/message` (send_message in src/app_railway.py,
lines 489-544). `body` is the `message` field of the JSON body. -/
def send_message (now : Nat) (agent_id : Int) (body : Option String)
    (s : DBState) : ApiResp × DBState :=
  match findAgent s agent_id with
  | none => (errResp 404 "Agent not found", s)
  | some agent =>
    let content := pyStrip (body.getD "")
    if content = "" then
      (errResp 400 "Message cannot be empty", s)
    else
      let s1 := { s with
        messages := s.messages ++
          [({ agent_id := agent_id, content := content,
              direction := "outbound" } : Message)],
        agents := s.agents.map (fun (a : Agent) =>
          if a.id == agent_id then
            { a with status := "busy", last_active := now }
          else a) }
      let s2 := { s1 with
        timeline := s1.timeline ++
          [({ event_type := "message", title := "Message to " ++ agent.name,
              description := content.take 100,
              agent_name := agent.name } : TimelineEvent)] }
      ({ http := 200, success := true, error := none, session_id := none,
         agent := some agent.name }, s2)

/-- `max(0, min(100, int(progress)))` from update_project. -/
def clampProgress (p : Int) : Int :=
  max 0 (min 100 p)

/-- `POST /api/project/<id>/update` (update_project in
src/app_railway.py, lines 546-573). `progress` and `status` are the
optional JSON body fields; `if status:` skips the update when the field
is absent or the empty string. -/
def update_project (now : Nat) (project_id : Int) (progress : Option Int)
    (status : Option String) (s : DBState) : ApiResp × DBState :=
  let s1 :=
    match progress with
    | none => s
    | some p =>
      let p' := clampProgress p
      { s with projects := s.projects.map (fun (pr : Project) =>
          if pr.id == project_id then
            { pr with progress := p', updated_at := now }
          else pr) }
  let s2 :=
    if status.getD "" = "" then s1
    else
      { s1 with projects := s1.projects.map (fun (pr : Project) =>
          if pr.id == project_id then
            { pr with status := status.getD "", updated_at := now }
          else pr) }
  (okResp, s2)

/-- A broken-down local time, the argument of strftime. -/
structure DateTime where
  year : Nat
  month : Nat
  day : Nat
  hour : Nat
  minute : Nat
  second : Nat
deriving Repr, DecidableEq

/-- Zero-pad the decimal representation of `n` to width `w`. -/
def padTo (w : Nat) (n : Nat) : String :=
  let s := toString n
  String.mk (List.replicate (w - s.length) '0') ++ s

/-- `datetime.now().strftime('%Y%m%d-%H%M%S')`. -/
def fmtYmdHMS (t : DateTime) : String :=
  padTo 4 t.year ++ padTo 2 t.month ++ padTo 2 t.day ++ "-" ++
  padTo 2 t.hour ++ padTo 2 t.minute ++ padTo 2 t.second

/-- `POST /api/spawn-agent` (spawn_agent in src/app_railway.py, lines
575-631). `agent_id` and `task` are the JSON body fields; `if not
agent_id:` also rejects an explicit id 0 (Python falsiness). -/
def spawn_agent (t : DateTime) (now : Nat) (agent_id : Option Int)
    (task : Option String) (s : DBState) : ApiResp × DBState :=
  if agent_id = none ∨ agent_id = some 0 then
    (errResp 400 "No agent selected", s)
  else
    let task' := pyStrip (task.getD "")
    if task' = "" then
      (errResp 400 "Task cannot be empty", s)
    else
      let aid := agent_id.getD 0
      match findAgent s aid with
      | none => (errResp 404 "Agent not found", s)
      | some agent =>
        let session_id :=
          "subagent-" ++ fmtYmdHMS t ++ "-" ++ pyLower agent.name
        let s1 := { s with
          subagents := s.subagents ++
            [({ session_id := session_id, agent_name := agent.name,
                task := task', status := "running",
                completed_at := none } : Subagent)],
          agents := s.agents.map (fun (a : Agent) =>
            if a.id == aid then
              { a with status := "active", last_active := now }
            else a) }
        let s2 := { s1 with
          timeline := s1.timeline ++
            [({ event_type := "spawn",
                title := "Agent " ++ agent.name ++ " Spawned",
                description := task'.take 100,
                agent_name := agent.name } : TimelineEvent)] }
        ({ http := 200, success := true, error := none,
           session_id := some session_id, agent := some agent.name }, s2)

/-- Insert one agent row with the next surrogate key (the row-level
effect of `INSERT INTO agents (name, role, status, description)`). -/
def insertAgent (now : Nat) (s : DBState)
    (r : String × String × String × String) : DBState :=
  { s with
    agents := s.agents ++
      [{ id := s.nextAgentId, name := r.1, role := r.2.1, status := r.2.2.1,
         description := r.2.2.2, last_active := now }],
    nextAgentId := s.nextAgentId + 1 }

/-- Insert one project row with the next surrogate key (the row-level
effect of `INSERT INTO projects (name, category, status, progress,
description)`). -/
def insertProject (now : Nat) (s : DBState)
    (r : String × String × String × Int × String) : DBState :=
  { s with
    projects := s.projects ++
      [{ id := s.nextProjectId, name := r.1, category := r.2.1,
         status := r.2.2.1, progress := r.2.2.2.1,
         description := r.2.2.2.2, updated_at := now }],
    nextProjectId := s.nextProjectId + 1 }

/-- The `default_agents` literal of init_db. -/
def default_agents : List (String × String × String × String) :=
  [("Alpha", "Research Assistant", "idle", "Web research and data gathering"),
   ("Beta", "Code Reviewer", "idle", "Code analysis and optimization"),
   ("Gamma", "Content Writer", "idle", "Documentation and content creation"),
   ("Delta", "Data Analyst", "idle", "Data processing and visualization"),
   ("Epsilon", "DevOps Engineer", "idle", "Infrastructure and deployment")]

/-- The `default_projects` literal of init_db. -/
def default_projects : List (String × String × String × Int × String) :=
  [("YouTube Automation", "youtube", "active", 65,
    "Automated video production pipeline"),
   ("Betting Analytics", "betting", "active", 40,
    "Sports betting data analysis system"),
   ("F-Gas Compliance", "f-gas", "paused", 80,
    "Refrigerant tracking and compliance"),
   ("Trading Bot", "trading", "active", 25,
    "Automated cryptocurrency trading")]

/-- init_db (src/app_railway.py, lines 137-330): CREATE TABLE IF NOT
EXISTS changes no rows and has no row-level effect here; then the default
agents, default projects and the bootstrap timeline event are each
inserted only when the respective table holds zero rows. -/
def init_db (now : Nat) (s : DBState) : DBState :=
  let s1 :=
    if s.agents.length = 0 then
      default_agents.foldl (insertAgent now) s
    else s
  let s2 :=
    if s1.projects.length = 0 then
      default_projects.foldl (insertProject now) s1
    else s1
  if s2.timeline.length = 0 then
    { s2 with timeline := s2.timeline ++
        [{ event_type := "system", title := "Mission Control Started",
           description := "System initialized and ready",
           agent_name := "System" }] }
  else s2

/-- A mutating operation of the system: one call of a mutating API
handler or of database initialization.  Read-only routes do not change
the database and are omitted. -/
inductive Op where
  | sendMessage (now : Nat) (agent_id : Int) (body : Option String)
  | updateProject (now : Nat) (project_id : Int) (progress : Option Int)
      (status : Option String)
  | spawnAgent (t : DateTime) (now : Nat) (agent_id : Option Int)
      (task : Option String)
  | initDb (now : Nat)
deriving Repr, DecidableEq

/-- State transition of one operation (the handler's effect on the
database, discarding the HTTP response). -/
def step (o : Op) (s : DBState) : DBState :=
  match o with
  | .sendMessage now aid body => (send_message now aid body s).2
  | .updateProject now pid progress status =>
      (update_project now pid progress status s).2
  | .spawnAgent t now aid task => (spawn_agent t now aid task s).2
  | .initDb now => init_db now s

/-- Run a sequence of operations from a state. -/
def runOps (ops : List Op) (s : DBState) : DBState :=
  ops.foldl (fun s o => step o s) s

/-- Body and HTTP status of the `/health` response. -/
structure HealthResp where
  http : Nat
  status : String
  database : String
  error : Option String
deriving Repr, DecidableEq

/-- `GET /health` (src/app_railway.py, lines 334-354): the argument is
the outcome of the `SELECT 1` probe, `.error e` standing for a raised
exception with message `e`. -/
def health (dbCheck : Except String Unit) : HealthResp :=
  match dbCheck with
  | .ok _ =>
    { http := 200, status := "healthy", database := "connected",
      error := none }
  | .error e =>
    { http := 200, status := "degraded", database := "disconnected",
      error := some e }

/-- A SQL scalar value as stored by either backend. -/
inductive SqlValue where
  | int (n : Int)
  | text (s : String)
  | null
deriving Repr, DecidableEq

/-- A row as produced by the sqlite3 driver with `row_factory =
sqlite3.Row`: an ordered sequence of named columns supporting key
access. -/
structure SqliteRow where
  entries : List (String × SqlValue)
deriving Repr, DecidableEq

/-- A row as produced by psycopg2's RealDictCursor: a dict from column
name to value, ordered by the SELECT list. -/
structure RealDictRow where
  entries : List (String × SqlValue)
deriving Repr, DecidableEq

/-- `query.replace('?', '%s')` in execute_sql (src/app_railway.py, line
100): every occurrence of the single character `?` becomes `%s`. -/
def rewritePlaceholders (q : String) : String :=
  String.mk (q.data.flatMap (fun c => if c = '?' then ['%', 's'] else [c]))

/-- The query text handed to the driver by execute_sql: rewritten on
PostgreSQL, verbatim on SQLite. -/
def execute_sql_query (isPg : Bool) (q : String) : String :=
  if isPg then rewritePlaceholders q else q

/-- fetchone on the PostgreSQL backend (src/app_railway.py, lines
114-121): `dict(result)` copies the RealDict row into a plain dict with
the same entries. -/
def fetchone_pg (r : Option RealDictRow) : Option (List (String × SqlValue)) :=
  r.map (fun d => d.entries)

/-- fetchone on the SQLite backend: the sqlite3.Row is returned as-is. -/
def fetchone_sqlite (r : Option SqliteRow) : Option SqliteRow :=
  r

/-- fetchall on the PostgreSQL backend (src/app_railway.py, lines
123-128): `[dict(row) for row in results]`. -/
def fetchall_pg (rs : List RealDictRow) : List (List (String × SqlValue)) :=
  rs.map (fun d => d.entries)

/-- fetchall on the SQLite backend: the rows are returned as-is. -/
def fetchall_sqlite (rs : List SqliteRow) : List SqliteRow :=
  rs

/-- The key-value mapping observed through a sqlite3.Row (key access,
`.keys()`): its named columns in order. -/
def SqliteRow.toMapping (r : SqliteRow) : List (String × SqlValue) :=
  r.entries

/-- A logical result set (rows of named columns, as computed by either
SQL engine for the same query and parameters) wrapped the way the
PostgreSQL driver hands it to the data-access layer. -/
def wrapPg (rows : List (List (String × SqlValue))) : List RealDictRow :=
  rows.map RealDictRow.mk

/-- The same logical result set wrapped the way the SQLite driver hands
it to the data-access layer. -/
def wrapSqlite (rows : List (List (String × SqlValue))) : List SqliteRow :=
  rows.map SqliteRow.mk

/-- The spec's project invariant: every stored progress lies in [0,100]. -/
def progressInv (s : DBState) : Prop :=
  ∀ pr ∈ s.projects, 0 ≤ pr.progress ∧ pr.progress ≤ 100

/-- The spec's subagent invariant: every subagents row still carries
status `running` and a NULL completed_at. -/
def subagentInv (s : DBState) : Prop :=
  ∀ r ∈ s.subagents, r.status = "running" ∧ r.completed_at = none

/-- A concrete agent row used to instantiate the theorems. -/
def sampleAgent : Agent :=
  { id := 1, name := "Alpha", role := "Research Assistant", status := "idle",
    description := "Web research and data gathering", last_active := 0 }

/-- A concrete project row used to instantiate the theorems. -/
def sampleProject : Project :=
  { id := 1, name := "Trading Bot", category := "trading", status := "active",
    progress := 10, description := "Automated cryptocurrency trading",
    updated_at := 0 }

/-- A concrete database state with one agent and one project. -/
def sampleState : DBState :=
  { agents := [sampleAgent], messages := [], projects := [sampleProject],
    timeline := [], subagents := [], nextAgentId := 2, nextProjectId := 2 }

/-- The sample project after an update that clamped progress to 100. -/
def clampedProject : Project :=
  { sampleProject with progress := 100, updated_at := 3 }

/-- The first project seeded by init_db from a fresh database. -/
def seededProject : Project :=
  { id := 1, name := "YouTube Automation", category := "youtube",
    status := "active", progress := 65,
    description := "Automated video production pipeline", updated_at := 0 }

end MissionControl

namespace MissionControl

theorem send_message_projects (now : Nat) (aid : Int) (body : Option String)
    (s : DBState) : (send_message now aid body s).2.projects = s.projects := by
  unfold send_message
  cases findAgent s aid with
  | none => rfl
  | some agent =>
    by_cases h : (pyStrip (body.getD "") = "") <;> simp [h]

theorem send_message_subagents (now : Nat) (aid : Int) (body : Option String)
    (s : DBState) : (send_message now aid body s).2.subagents = s.subagents := by
  unfold send_message
  cases findAgent s aid with
  | none => rfl
  | some agent =>
    by_cases h : (pyStrip (body.getD "") = "") <;> simp [h]

theorem update_project_timeline (now : Nat) (pid : Int) (p : Option Int)
    (st : Option String) (s : DBState) :
    (update_project now pid p st s).2.timeline = s.timeline := by
  unfold update_project
  cases p <;> by_cases h : (st.getD "" = "") <;> simp [h]

theorem update_project_subagents (now : Nat) (pid : Int) (p : Option Int)
    (st : Option String) (s : DBState) :
    (update_project now pid p st s).2.subagents = s.subagents := by
  unfold update_project
  cases p <;> by_cases h : (st.getD "" = "") <;> simp [h]

theorem spawn_agent_projects (t : DateTime) (now : Nat) (aid : Option Int)
    (task : Option String) (s : DBState) :
    (spawn_agent t now aid task s).2.projects = s.projects := by
  unfold spawn_agent
  by_cases h0 : (aid = none ∨ aid = some 0)
  · simp [h0]
  · by_cases h1 : (pyStrip (task.getD "") = "")
    · simp [h0, h1]
    · cases hf : findAgent s (aid.getD 0) <;> simp [h0, h1, hf]

theorem foldl_insertAgent_projects (now : Nat)
    (L : List (String × String × String × String)) (s : DBState) :
    (L.foldl (insertAgent now) s).projects = s.projects := by
  induction L generalizing s with
  | nil => rfl
  | cons r L ih => exact (ih _).trans rfl

theorem foldl_insertAgent_timeline (now : Nat)
    (L : List (String × String × String × String)) (s : DBState) :
    (L.foldl (insertAgent now) s).timeline = s.timeline := by
  induction L generalizing s with
  | nil => rfl
  | cons r L ih => exact (ih _).trans rfl

theorem foldl_insertAgent_subagents (now : Nat)
    (L : List (String × String × String × String)) (s : DBState) :
    (L.foldl (insertAgent now) s).subagents = s.subagents := by
  induction L generalizing s with
  | nil => rfl
  | cons r L ih => exact (ih _).trans rfl

theorem foldl_insertAgent_agents_length (now : Nat)
    (L : List (String × String × String × String)) (s : DBState) :
    (L.foldl (insertAgent now) s).agents.length =
      s.agents.length + L.length := by
  induction L generalizing s with
  | nil => rfl
  | cons r L ih =>
    rw [List.foldl_cons, ih]
    simp [insertAgent]
    omega

theorem foldl_insertProject_agents (now : Nat)
    (L : List (String × String × String × Int × String)) (s : DBState) :
    (L.foldl (insertProject now) s).agents = s.agents := by
  induction L generalizing s with
  | nil => rfl
  | cons r L ih => exact (ih _).trans rfl

theorem foldl_insertProject_timeline (now : Nat)
    (L : List (String × String × String × Int × String)) (s : DBState) :
    (L.foldl (insertProject now) s).timeline = s.timeline := by
  induction L generalizing s with
  | nil => rfl
  | cons r L ih => exact (ih _).trans rfl

theorem foldl_insertProject_subagents (now : Nat)
    (L : List (String × String × String × Int × String)) (s : DBState) :
    (L.foldl (insertProject now) s).subagents = s.subagents := by
  induction L generalizing s with
  | nil => rfl
  | cons r L ih => exact (ih _).trans rfl

theorem foldl_insertProject_projects_length (now : Nat)
    (L : List (String × String × String × Int × String)) (s : DBState) :
    (L.foldl (insertProject now) s).projects.length =
      s.projects.length + L.length := by
  induction L generalizing s with
  | nil => rfl
  | cons r L ih =>
    rw [List.foldl_cons, ih]
    simp [insertProject]
    omega

theorem foldl_insertProject_mem (now : Nat)
    (L : List (String × String × String × Int × String)) (s : DBState) :
    ∀ pr ∈ (L.foldl (insertProject now) s).projects,
      pr ∈ s.projects ∨ ∃ r ∈ L, pr.progress = r.2.2.2.1 := by
  induction L generalizing s with
  | nil => intro pr h; exact Or.inl h
  | cons r L ih =>
    intro pr h
    rcases ih _ pr h with h' | ⟨r', hr', hp⟩
    · simp [insertProject, List.mem_append] at h'
      rcases h' with h' | h'
      · exact Or.inl h'
      · exact Or.inr ⟨r, List.mem_cons_self r L, by rw [h']⟩
    · exact Or.inr ⟨r', List.mem_cons_of_mem r hr', hp⟩

theorem init_db_agents (now : Nat) (s : DBState) :
    (init_db now s).agents =
      if s.agents.length = 0
      then (default_agents.foldl (insertAgent now) s).agents
      else s.agents := by
  unfold init_db
  by_cases ha : s.agents.length = 0 <;>
    by_cases hp : s.projects.length = 0 <;>
      simp [ha, hp, foldl_insertAgent_projects, foldl_insertProject_agents] <;>
        split <;>
          simp [foldl_insertProject_agents]

theorem init_db_projects_length (now : Nat) (s : DBState) :
    (init_db now s).projects.length =
      if s.projects.length = 0 then s.projects.length + 4
      else s.projects.length := by
  unfold init_db
  by_cases ha : s.agents.length = 0 <;>
    by_cases hp : s.projects.length = 0 <;>
      simp [ha, hp, foldl_insertAgent_projects,
        foldl_insertProject_projects_length, default_projects] <;>
        split <;>
          simp [foldl_insertAgent_projects, foldl_insertProject_projects_length,
            default_projects, insertProject, hp]

theorem init_db_timeline (now : Nat) (s : DBState) :
    (init_db now s).timeline =
      if s.timeline.length = 0
      then s.timeline ++
        [{ event_type := "system", title := "Mission Control Started",
           description := "System initialized and ready",
           agent_name := "System" }]
      else s.timeline := by
  unfold init_db
  by_cases ha : s.agents.length = 0 <;>
    by_cases hp : s.projects.length = 0 <;>
      simp [ha, hp, foldl_insertAgent_projects, foldl_insertAgent_timeline,
        foldl_insertProject_timeline] <;>
        split <;>
          simp_all [foldl_insertAgent_timeline, foldl_insertProject_timeline]

theorem init_db_agents_ne (now : Nat) (s : DBState) :
    (init_db now s).agents.length ≠ 0 := by
  rw [init_db_agents]
  split
  · rw [foldl_insertAgent_agents_length]; simp [default_agents]
  · assumption

theorem init_db_projects_ne (now : Nat) (s : DBState) :
    (init_db now s).projects.length ≠ 0 := by
  rw [init_db_projects_length]
  split <;> omega

theorem init_db_timeline_ne (now : Nat) (s : DBState) :
    (init_db now s).timeline.length ≠ 0 := by
  rw [init_db_timeline]
  split <;> simp_all

theorem init_db_of_nonempty (now : Nat) (s : DBState)
    (ha : s.agents.length ≠ 0) (hp : s.projects.length ≠ 0)
    (ht : s.timeline.length ≠ 0) : init_db now s = s := by
  unfold init_db
  have ht' : ¬ s.timeline = [] := by
    intro h; exact ht (by simp [h])
  simp [ha, hp, ht']

theorem init_db_idem (n1 n2 : Nat) (s : DBState) :
    init_db n2 (init_db n1 s) = init_db n1 s :=
  init_db_of_nonempty n2 _ (init_db_agents_ne n1 s)
    (init_db_projects_ne n1 s) (init_db_timeline_ne n1 s)

theorem init_db_projects_of_ne (now : Nat) (s : DBState)
    (hp : s.projects ≠ []) : (init_db now s).projects = s.projects := by
  unfold init_db
  have hp' : ¬ s.projects.length = 0 := by
    simpa [List.length_eq_zero] using hp
  by_cases ha : s.agents.length = 0 <;>
    simp [ha, hp', foldl_insertAgent_projects] <;>
      split <;> simp [foldl_insertAgent_projects]

theorem init_db_agents_of_ne (now : Nat) (s : DBState)
    (ha : s.agents ≠ []) : (init_db now s).agents = s.agents := by
  have ha' : ¬ s.agents.length = 0 := by
    simpa [List.length_eq_zero] using ha
  rw [init_db_agents, if_neg ha']

theorem init_db_timeline_of_ne (now : Nat) (s : DBState)
    (ht : s.timeline ≠ []) : (init_db now s).timeline = s.timeline := by
  have ht' : ¬ s.timeline.length = 0 := by
    simpa [List.length_eq_zero] using ht
  rw [init_db_timeline, if_neg ht']

end MissionControl

namespace MissionControl

/-- C3: for an existing agent, a message body that is empty or all
whitespace is rejected with HTTP 400, success false, and an unchanged
database state. -/
theorem c3_empty_message_rejected (now : Nat) (aid : Int)
    (body : Option String) (s : DBState)
    (hex : ∃ a ∈ s.agents, a.id = aid)
    (hbody : pyStrip (body.getD "") = "") :
    (send_message now aid body s).1.http = 400 ∧
    (send_message now aid body s).1.success = false ∧
    (send_message now aid body s).2 = s := by
  have hfind : (findAgent s aid).isSome := by
    unfold findAgent
    rw [List.find?_isSome]
    rcases hex with ⟨a, ha, haid⟩
    exact ⟨a, ha, by simp [haid]⟩
  rcases Option.isSome_iff_exists.mp hfind with ⟨agent, hagent⟩
  unfold send_message
  rw [hagent]
  simp [hbody, errResp]

/-- witness for C3 at a concrete state -/
theorem c3_witness :
    (send_message 5 1 (some "   ") sampleState).1.http = 400 ∧
    (send_message 5 1 (some "   ") sampleState).1.success = false ∧
    (send_message 5 1 (some "   ") sampleState).2 = sampleState :=
  c3_empty_message_rejected 5 1 (some "   ") sampleState
    ⟨sampleAgent, by decide, by decide⟩ (by decide)

/-- C4: sending to a nonexistent agent id returns HTTP 404, success
false, and an unchanged database state. -/
theorem c4_unknown_agent_404 (now : Nat) (aid : Int) (body : Option String)
    (s : DBState) (hall : ∀ a ∈ s.agents, a.id ≠ aid) :
    (send_message now aid body s).1.http = 404 ∧
    (send_message now aid body s).1.success = false ∧
    (send_message now aid body s).2 = s := by
  have hfind : findAgent s aid = none := by
    unfold findAgent
    rw [List.find?_eq_none]
    intro a ha
    simp [hall a ha]
  unfold send_message
  rw [hfind]
  simp [errResp]

/-- witness for C4 at a concrete state -/
theorem c4_witness :
    (send_message 5 99 (some "hello") sampleState).1.http = 404 ∧
    (send_message 5 99 (some "hello") sampleState).1.success = false ∧
    (send_message 5 99 (some "hello") sampleState).2 = sampleState :=
  c4_unknown_agent_404 5 99 (some "hello") sampleState (by decide)

/-- C5: init_db is idempotent (a second run is the identity on the
whole state), and defaults are inserted only into empty tables. -/
theorem c5_init_db_idempotent :
    (∀ n1 n2 (s : DBState), init_db n2 (init_db n1 s) = init_db n1 s) ∧
    (∀ n (s : DBState), s.agents ≠ [] → (init_db n s).agents = s.agents) ∧
    (∀ n (s : DBState), s.projects ≠ [] →
      (init_db n s).projects = s.projects) ∧
    (∀ n (s : DBState), s.timeline ≠ [] →
      (init_db n s).timeline = s.timeline) :=
  ⟨init_db_idem, init_db_agents_of_ne, init_db_projects_of_ne,
   init_db_timeline_of_ne⟩

/-- witness for C5: the second run on a freshly seeded database changes
nothing, and nonempty tables are left alone -/
theorem c5_witness :
    init_db 1 (init_db 0 initialState) = init_db 0 initialState ∧
    (init_db 2 (init_db 0 initialState)).agents =
      (init_db 0 initialState).agents ∧
    (init_db 2 (init_db 0 initialState)).projects =
      (init_db 0 initialState).projects ∧
    (init_db 2 (init_db 0 initialState)).timeline =
      (init_db 0 initialState).timeline :=
  ⟨c5_init_db_idempotent.1 0 1 initialState,
   c5_init_db_idempotent.2.1 2 _ (by decide),
   c5_init_db_idempotent.2.2.1 2 _ (by decide),
   c5_init_db_idempotent.2.2.2 2 _ (by decide)⟩

/-- C6: the health endpoint answers HTTP 200 in every case, with body
status healthy on a working database and degraded (with the error
embedded) on a failing one. -/
theorem c6_health_always_200 :
    health (Except.ok ()) =
      { http := 200, status := "healthy", database := "connected",
        error := none } ∧
    (∀ e, health (Except.error e) =
      { http := 200, status := "degraded", database := "disconnected",
        error := some e }) ∧
    (∀ d, (health d).http = 200) := by
  refine ⟨rfl, fun e => rfl, fun d => ?_⟩
  cases d <;> rfl

/-- C10: updating a nonexistent project id yields a plain success
response and leaves the state unchanged. -/
theorem c10_update_missing_project (now : Nat) (pid : Int) (p : Option Int)
    (st : Option String) (s : DBState)
    (hnone : ∀ pr ∈ s.projects, pr.id ≠ pid) :
    (update_project now pid p st s).1 = okResp ∧
    (update_project now pid p st s).2 = s := by
  have key : ∀ (upd : Project → Project),
      s.projects.map
        (fun (pr : Project) => if pr.id = pid then upd pr else pr)
        = s.projects := by
    intro upd
    have h : ∀ pr ∈ s.projects,
        (fun (pr : Project) => if pr.id = pid then upd pr else pr) pr
          = id pr := by
      intro pr hpr
      simp [hnone pr hpr]
    rw [List.map_congr_left h, List.map_id]
  unfold update_project
  cases p with
  | none =>
    by_cases hst : (st.getD "" = "") <;> simp [hst, key]
  | some pv =>
    by_cases hst : (st.getD "" = "") <;> simp [hst, key]

/-- witness for C10 at a concrete state -/
theorem c10_witness :
    (update_project 4 77 (some 55) (some "paused") sampleState).1 = okResp ∧
    (update_project 4 77 (some 55) (some "paused") sampleState).2 =
      sampleState :=
  c10_update_missing_project 4 77 (some 55) (some "paused") sampleState
    (by decide)

end MissionControl

namespace MissionControl

/-- C1 (counterexample to the claim as stated): on a concrete state,
update_project succeeds yet appends no timeline row, so not every
successful mutating API operation grows the timeline by one. -/
theorem c1_counterexample :
    (update_project 1 1 (some 50) none sampleState).1.success = true ∧
    (update_project 1 1 (some 50) none sampleState).2.timeline.length =
      sampleState.timeline.length :=
  ⟨rfl, rfl⟩

/-- C1 (amended): successful send_message and spawn_agent calls append
exactly one timeline row; a successful update_project call appends
none. -/
theorem c1_timeline_rows :
    (∀ now aid body (s : DBState),
      (send_message now aid body s).1.success = true →
      (send_message now aid body s).2.timeline.length =
        s.timeline.length + 1) ∧
    (∀ t now aid task (s : DBState),
      (spawn_agent t now aid task s).1.success = true →
      (spawn_agent t now aid task s).2.timeline.length =
        s.timeline.length + 1) ∧
    (∀ now pid p st (s : DBState),
      (update_project now pid p st s).1.success = true →
      (update_project now pid p st s).2.timeline.length =
        s.timeline.length) := by
  refine ⟨?_, ?_, ?_⟩
  · intro now aid body s h
    unfold send_message at h ⊢
    cases hf : findAgent s aid with
    | none => simp [hf, errResp] at h
    | some agent =>
      by_cases hc : (pyStrip (body.getD "") = "")
      · simp [hf, hc, errResp] at h
      · simp [hf, hc]
  · intro t now aid task s h
    unfold spawn_agent at h ⊢
    by_cases h0 : (aid = none ∨ aid = some 0)
    · simp [h0, errResp] at h
    · by_cases h1 : (pyStrip (task.getD "") = "")
      · simp [h0, h1, errResp] at h
      · cases hf : findAgent s (aid.getD 0) with
        | none => simp [h0, h1, hf, errResp] at h
        | some agent => simp [h0, h1, hf]
  · intro now pid p st s h
    rw [update_project_timeline]

/-- witness for C1 at concrete inputs: one message send and one spawn
each add a timeline row, one project update adds none -/
theorem c1_witness :
    (send_message 5 1 (some "hi") sampleState).2.timeline.length =
      sampleState.timeline.length + 1 ∧
    (spawn_agent ⟨2026, 1, 2, 3, 4, 5⟩ 7 (some 1) (some "build")
      sampleState).2.timeline.length = sampleState.timeline.length + 1 ∧
    (update_project 1 1 (some 50) none sampleState).2.timeline.length =
      sampleState.timeline.length :=
  ⟨c1_timeline_rows.1 5 1 (some "hi") sampleState (by decide),
   c1_timeline_rows.2.1 ⟨2026, 1, 2, 3, 4, 5⟩ 7 (some 1) (some "build")
     sampleState (by decide),
   c1_timeline_rows.2.2 1 1 (some 50) none sampleState (by decide)⟩

end MissionControl

namespace MissionControl

theorem clampProgress_bounds (p : Int) :
    0 ≤ clampProgress p ∧ clampProgress p ≤ 100 := by
  unfold clampProgress
  exact ⟨le_max_left 0 _, max_le (by norm_num) (min_le_left _ _)⟩

theorem init_db_projects (now : Nat) (s : DBState) :
    (init_db now s).projects =
      if s.projects.length = 0
      then (default_projects.foldl (insertProject now)
        (if s.agents.length = 0
         then default_agents.foldl (insertAgent now) s
         else s)).projects
      else s.projects := by
  unfold init_db
  by_cases ha : s.agents.length = 0 <;>
    by_cases hp : s.projects.length = 0 <;>
      simp [ha, hp, foldl_insertAgent_projects] <;>
        split <;> simp [foldl_insertAgent_projects]

theorem init_db_projects_mem (now : Nat) (s : DBState) :
    ∀ pr ∈ (init_db now s).projects,
      pr ∈ s.projects ∨ ∃ r ∈ default_projects, pr.progress = r.2.2.2.1 := by
  rw [init_db_projects]
  split
  · intro pr hpr
    rcases foldl_insertProject_mem now default_projects _ pr hpr with h | h
    · split at h
      · rw [foldl_insertAgent_projects] at h
        exact Or.inl h
      · exact Or.inl h
    · exact Or.inr h
  · intro pr hpr
    exact Or.inl hpr

theorem update_project_progressInv (now : Nat) (pid : Int) (p : Option Int)
    (st : Option String) (s : DBState) (h : progressInv s) :
    progressInv (update_project now pid p st s).2 := by
  unfold progressInv at h ⊢
  unfold update_project
  have hstatus : ∀ (l : List Project),
      (∀ pr ∈ l, 0 ≤ pr.progress ∧ pr.progress ≤ 100) →
      ∀ pr ∈ l.map (fun (x : Project) =>
        if x.id == pid then { x with status := st.getD "", updated_at := now }
        else x), 0 ≤ pr.progress ∧ pr.progress ≤ 100 := by
    intro l hl pr hpr
    rcases List.mem_map.mp hpr with ⟨x, hx, rfl⟩
    by_cases hxe : (x.id == pid) = true
    · rw [if_pos hxe]; exact hl x hx
    · rw [if_neg hxe]; exact hl x hx
  have hprog : ∀ (q : Int) (l : List Project),
      (∀ pr ∈ l, 0 ≤ pr.progress ∧ pr.progress ≤ 100) →
      ∀ pr ∈ l.map (fun (x : Project) =>
        if x.id == pid then
          { x with progress := clampProgress q, updated_at := now }
        else x), 0 ≤ pr.progress ∧ pr.progress ≤ 100 := by
    intro q l hl pr hpr
    rcases List.mem_map.mp hpr with ⟨x, hx, rfl⟩
    by_cases hxe : (x.id == pid) = true
    · rw [if_pos hxe]; exact clampProgress_bounds q
    · rw [if_neg hxe]; exact hl x hx
  cases p with
  | none =>
    by_cases hst : (st.getD "" = "")
    · simpa [hst] using h
    · simpa [hst] using hstatus s.projects h
  | some q =>
    by_cases hst : (st.getD "" = "")
    · simpa [hst] using hprog q s.projects h
    · simpa [hst] using hstatus _ (hprog q s.projects h)

theorem init_db_progressInv (now : Nat) (s : DBState) (h : progressInv s) :
    progressInv (init_db now s) := by
  intro pr hpr
  rcases init_db_projects_mem now s pr hpr with h' | ⟨r, hr, hpeq⟩
  · exact h pr h'
  · rw [hpeq]
    fin_cases hr <;> simp

theorem step_progressInv (o : Op) (s : DBState) (h : progressInv s) :
    progressInv (step o s) := by
  cases o with
  | sendMessage now aid body =>
    intro pr hpr
    rw [step, send_message_projects] at hpr
    exact h pr hpr
  | updateProject now pid p st =>
    exact update_project_progressInv now pid p st s h
  | spawnAgent t now aid task =>
    intro pr hpr
    rw [step, spawn_agent_projects] at hpr
    exact h pr hpr
  | initDb now =>
    exact init_db_progressInv now s h

theorem runOps_progressInv (ops : List Op) (s : DBState) (h : progressInv s) :
    progressInv (runOps ops s) := by
  induction ops generalizing s with
  | nil => exact h
  | cons o ops ih => exact ih (step o s) (step_progressInv o s h)

/-- C2: after update_project with an integer progress, every stored row
with the targeted id holds max(0, min(100, progress)); and in every
reachable state each project's progress lies in [0,100]. -/
theorem c2_progress_clamped :
    (∀ now pid p st (s : DBState),
      ∀ pr ∈ (update_project now pid (some p) st s).2.projects,
        pr.id = pid → pr.progress = max 0 (min 100 p)) ∧
    (∀ ops, ∀ pr ∈ (runOps ops initialState).projects,
      0 ≤ pr.progress ∧ pr.progress ≤ 100) := by
  constructor
  · intro now pid p st s
    by_cases hst : (st.getD "" = "")
    · intro pr hpr hid
      simp [update_project, hst] at hpr
      rcases hpr with ⟨x, hx, rfl⟩
      by_cases hxe : x.id = pid
      · simp [hxe, clampProgress]
      · simp [hxe] at hid
    · intro pr hpr hid
      simp [update_project, hst] at hpr
      rcases hpr with ⟨x, hx, rfl⟩
      by_cases hxe : x.id = pid
      · simp [hxe, clampProgress]
      · simp [hxe] at hid
  · intro ops
    exact runOps_progressInv ops initialState (by intro pr hpr; simp [initialState] at hpr)

/-- witness for C2: progress 150 is stored as 100, progress -10 as 0,
and a seeded project's progress lies in [0,100] -/
theorem c2_witness :
    clampedProject ∈
      (update_project 3 1 (some 150) none sampleState).2.projects ∧
    clampedProject.progress = max 0 (min 100 150) ∧
    { sampleProject with progress := 0, updated_at := 3 } ∈
      (update_project 3 1 (some (-10)) none sampleState).2.projects ∧
    ({ sampleProject with progress := 0, updated_at := 3 } : Project).progress
      = max 0 (min 100 (-10)) ∧
    0 ≤ seededProject.progress ∧ seededProject.progress ≤ 100 :=
  ⟨by decide,
   c2_progress_clamped.1 3 1 150 none sampleState clampedProject (by decide)
     (by decide),
   by decide,
   c2_progress_clamped.1 3 1 (-10) none sampleState
     { sampleProject with progress := 0, updated_at := 3 } (by decide)
     (by decide),
   (c2_progress_clamped.2 [Op.initDb 0] seededProject (by decide)).1,
   (c2_progress_clamped.2 [Op.initDb 0] seededProject (by decide)).2⟩

end MissionControl

namespace MissionControl

theorem spawn_agent_success_eq (t : DateTime) (now : Nat) (aid : Int)
    (task : Option String) (s : DBState) (agent : Agent)
    (h0 : aid ≠ 0) (hf : findAgent s aid = some agent)
    (htask : pyStrip (task.getD "") ≠ "") :
    spawn_agent t now (some aid) task s =
      ({ http := 200, success := true, error := none,
         session_id :=
           some ("subagent-" ++ fmtYmdHMS t ++ "-" ++ pyLower agent.name),
         agent := some agent.name },
       { s with
         agents := s.agents.map (fun (a : Agent) =>
           if a.id == aid then
             { a with status := "active", last_active := now }
           else a),
         timeline := s.timeline ++
           [{ event_type := "spawn",
              title := "Agent " ++ agent.name ++ " Spawned",
              description := (pyStrip (task.getD "")).take 100,
              agent_name := agent.name }],
         subagents := s.subagents ++
           [{ session_id :=
                "subagent-" ++ fmtYmdHMS t ++ "-" ++ pyLower agent.name,
              agent_name := agent.name, task := pyStrip (task.getD ""),
              status := "running", completed_at := none }] }) := by
  have hcond : ¬ ((some aid : Option Int) = none ∨
      (some aid : Option Int) = some 0) := by
    simp [h0]
  unfold spawn_agent
  rw [if_neg hcond]
  dsimp only
  rw [if_neg htask]
  simp only [Option.getD_some]
  rw [hf]

/-- C7: for an existing agent (with a truthy id) and a task that is
nonempty after stripping, spawn_agent succeeds, appends one subagents
row with status running, sets the agent's status to active, appends one
timeline row, and returns the session id
`subagent-<YYYYMMDD-HHMMSS>-<lowercased agent name>`. -/
theorem c7_spawn_agent_success (t : DateTime) (now : Nat) (aid : Int)
    (task : Option String) (s : DBState) (agent : Agent)
    (h0 : aid ≠ 0) (hf : findAgent s aid = some agent)
    (htask : pyStrip (task.getD "") ≠ "") :
    (spawn_agent t now (some aid) task s).1.success = true ∧
    (spawn_agent t now (some aid) task s).1.session_id =
      some ("subagent-" ++ fmtYmdHMS t ++ "-" ++ pyLower agent.name) ∧
    (spawn_agent t now (some aid) task s).2.subagents =
      s.subagents ++
        [{ session_id :=
             "subagent-" ++ fmtYmdHMS t ++ "-" ++ pyLower agent.name,
           agent_name := agent.name, task := pyStrip (task.getD ""),
           status := "running", completed_at := none }] ∧
    (∀ a ∈ (spawn_agent t now (some aid) task s).2.agents,
      a.id = aid → a.status = "active") ∧
    (spawn_agent t now (some aid) task s).2.timeline.length =
      s.timeline.length + 1 := by
  rw [spawn_agent_success_eq t now aid task s agent h0 hf htask]
  refine ⟨rfl, rfl, rfl, ?_, ?_⟩
  · intro a ha hida
    rcases List.mem_map.mp ha with ⟨x, hx, rfl⟩
    by_cases hxe : x.id = aid
    · simp [hxe]
    · simp [hxe] at hida
  · simp

/-- witness for C7 at a concrete state and timestamp -/
theorem c7_witness :
    (spawn_agent ⟨2026, 1, 2, 3, 4, 5⟩ 7 (some 1) (some " build ")
      sampleState).1.session_id =
        some ("subagent-" ++ fmtYmdHMS ⟨2026, 1, 2, 3, 4, 5⟩ ++ "-" ++
          pyLower sampleAgent.name) ∧
    (spawn_agent ⟨2026, 1, 2, 3, 4, 5⟩ 7 (some 1) (some " build ")
      sampleState).2.subagents =
      sampleState.subagents ++
        [{ session_id := "subagent-" ++ fmtYmdHMS ⟨2026, 1, 2, 3, 4, 5⟩ ++
             "-" ++ pyLower sampleAgent.name,
           agent_name := sampleAgent.name,
           task := pyStrip ((some " build ").getD ""),
           status := "running", completed_at := none }] :=
  ⟨(c7_spawn_agent_success ⟨2026, 1, 2, 3, 4, 5⟩ 7 1 (some " build ")
      sampleState sampleAgent (by decide) (by decide) (by decide)).2.1,
   (c7_spawn_agent_success ⟨2026, 1, 2, 3, 4, 5⟩ 7 1 (some " build ")
      sampleState sampleAgent (by decide) (by decide) (by decide)).2.2.1⟩

end MissionControl

namespace MissionControl

theorem init_db_subagents (now : Nat) (s : DBState) :
    (init_db now s).subagents = s.subagents := by
  unfold init_db
  by_cases ha : s.agents.length = 0 <;>
    by_cases hp : s.projects.length = 0 <;>
      simp [ha, hp, foldl_insertAgent_projects, foldl_insertAgent_subagents,
        foldl_insertProject_subagents] <;>
        split <;>
          simp [foldl_insertAgent_subagents, foldl_insertProject_subagents]

theorem spawn_agent_subagents_cases (t : DateTime) (now : Nat)
    (aid : Option Int) (task : Option String) (s : DBState) :
    (spawn_agent t now aid task s).2.subagents = s.subagents ∨
    ∃ row : Subagent, row.status = "running" ∧ row.completed_at = none ∧
      (spawn_agent t now aid task s).2.subagents = s.subagents ++ [row] := by
  unfold spawn_agent
  by_cases h0 : (aid = none ∨ aid = some 0)
  · left; simp [h0]
  · by_cases h1 : (pyStrip (task.getD "") = "")
    · left; simp [h0, h1]
    · cases hf : findAgent s (aid.getD 0) with
      | none => left; simp [h0, h1, hf]
      | some agent =>
        right
        refine ⟨({ session_id := "subagent-" ++ fmtYmdHMS t ++ "-" ++
                       pyLower agent.name,
                   agent_name := agent.name,
                   task := pyStrip (task.getD ""), status := "running",
                   completed_at := none } : Subagent), rfl, rfl, ?_⟩
        simp [h0, h1, hf]

theorem step_subagents (o : Op) (s : DBState) :
    ∃ tl, (step o s).subagents = s.subagents ++ tl ∧
      ∀ r ∈ tl, r.status = "running" ∧ r.completed_at = none := by
  cases o with
  | sendMessage now aid body =>
    exact ⟨[], by rw [step, send_message_subagents, List.append_nil],
      by simp⟩
  | updateProject now pid p st =>
    exact ⟨[], by rw [step, update_project_subagents, List.append_nil],
      by simp⟩
  | spawnAgent t now aid task =>
    rcases spawn_agent_subagents_cases t now aid task s with h | ⟨row, h1, h2, h3⟩
    · exact ⟨[], by rw [step, h, List.append_nil], by simp⟩
    · exact ⟨[row], by rw [step, h3], by simp [h1, h2]⟩
  | initDb now =>
    exact ⟨[], by rw [step, init_db_subagents, List.append_nil], by simp⟩

theorem step_subagentInv (o : Op) (s : DBState) (h : subagentInv s) :
    subagentInv (step o s) := by
  rcases step_subagents o s with ⟨tl, heq, htl⟩
  intro r hr
  rw [heq] at hr
  rcases List.mem_append.mp hr with hr' | hr'
  · exact h r hr'
  · exact htl r hr'

theorem runOps_subagentInv (ops : List Op) (s : DBState)
    (h : subagentInv s) : subagentInv (runOps ops s) := by
  induction ops generalizing s with
  | nil => exact h
  | cons o ops ih => exact ih (step o s) (step_subagentInv o s h)

/-- C9: subagent rows are append-only: no operation removes or rewrites
an existing subagents row, and in every reachable state every subagents
row still has status running and a NULL completed_at. -/
theorem c9_subagents_append_only :
    (∀ (o : Op) (s : DBState), ∃ tl,
      (step o s).subagents = s.subagents ++ tl) ∧
    (∀ ops, ∀ r ∈ (runOps ops initialState).subagents,
      r.status = "running" ∧ r.completed_at = none) := by
  constructor
  · intro o s
    rcases step_subagents o s with ⟨tl, heq, _⟩
    exact ⟨tl, heq⟩
  · intro ops
    exact runOps_subagentInv ops initialState
      (by intro r hr; simp [initialState] at hr)

/-- witness for C9: the row spawned after seeding still reads running
with no completion time -/
theorem c9_witness :
    ({ session_id := "subagent-20260102-030405-alpha",
       agent_name := "Alpha", task := "build", status := "running",
       completed_at := none } : Subagent).status = "running" ∧
    ({ session_id := "subagent-20260102-030405-alpha",
       agent_name := "Alpha", task := "build", status := "running",
       completed_at := none } : Subagent).completed_at = none :=
  c9_subagents_append_only.2
    [Op.initDb 0, Op.spawnAgent ⟨2026, 1, 2, 3, 4, 5⟩ 7 (some 1)
      (some "build")]
    { session_id := "subagent-20260102-030405-alpha", agent_name := "Alpha",
      task := "build", status := "running", completed_at := none }
    (by decide)

end MissionControl

namespace MissionControl

theorem rewritePlaceholders_no_qmark (q : String) :
    '?' ∉ (rewritePlaceholders q).data := by
  intro hmem
  unfold rewritePlaceholders at hmem
  rcases List.mem_flatMap.mp hmem with ⟨c, hc, hin⟩
  by_cases hcq : c = '?'
  · simp [hcq] at hin
  · simp [hcq] at hin
    exact hcq hin.symm

theorem rewritePlaceholders_append (a b : String) :
    rewritePlaceholders (a ++ b) =
      rewritePlaceholders a ++ rewritePlaceholders b := by
  unfold rewritePlaceholders
  show String.mk ((a.data ++ b.data).flatMap _) = _
  rw [List.flatMap_append]
  rfl

/-- C8: the data-access layer behaves identically over the two backends:
on PostgreSQL the query text has every `?` rewritten to `%s` (none
left, rewriting distributes over concatenation, `?` itself becomes `%s`
and other characters are untouched), and for any logical result set the
normalized rows coming back from fetchone/fetchall agree between the
PostgreSQL path (dict conversion) and the SQLite path (sqlite3.Row key
access). -/
theorem c8_dual_dialect :
    (∀ q, execute_sql_query true q = rewritePlaceholders q ∧
      execute_sql_query false q = q ∧
      '?' ∉ (rewritePlaceholders q).data) ∧
    (∀ a b, rewritePlaceholders (a ++ b) =
      rewritePlaceholders a ++ rewritePlaceholders b) ∧
    rewritePlaceholders (String.mk ['?']) = "%s" ∧
    (∀ c, c ≠ '?' → rewritePlaceholders (String.mk [c]) = String.mk [c]) ∧
    (∀ rows, fetchall_pg (wrapPg rows) =
      (fetchall_sqlite (wrapSqlite rows)).map SqliteRow.toMapping) ∧
    (∀ row, fetchone_pg (some (RealDictRow.mk row)) =
      (fetchone_sqlite (some (SqliteRow.mk row))).map SqliteRow.toMapping) ∧
    fetchone_pg none = none ∧
    (fetchone_sqlite none).map SqliteRow.toMapping = none := by
  refine ⟨?_, rewritePlaceholders_append, rfl, ?_, ?_, ?_, rfl, rfl⟩
  · intro q
    exact ⟨rfl, rfl, rewritePlaceholders_no_qmark q⟩
  · intro c hc
    unfold rewritePlaceholders
    simp [hc]
  · intro rows
    simp [fetchall_pg, wrapPg, fetchall_sqlite, wrapSqlite,
      SqliteRow.toMapping]
  · intro row
    rfl

/-- witness for C8: a character other than the placeholder is left
untouched by the PostgreSQL rewriting -/
theorem c8_witness :
    rewritePlaceholders (String.mk ['S']) = String.mk ['S'] :=
  c8_dual_dialect.2.2.2.1 'S' (by decide)

end MissionControl
